import Mathlib

/-!
Verification development for the user-page synchronization core
(`src/ui/src/components/user.tsx`): the data model (`UserState`), the
envelope dispatcher (`parseMessage`), the user-action handlers, the
overview ordering, and the channel retry pipeline, embedded shallowly
as pure Lean functions.  JavaScript objects become structures, `null` /
`undefined` become `Option`, numbers become `Int`, and the imperative
in-place mutations of `this.state` become functional record updates
returning the new state together with the externally observable effects
(toasts, navigation, outbound requests, identity-context login).
-/

namespace UserPage

/-- `SortType` from `../interfaces` (the subset of constructors used by the page). -/
inductive SortType
  | Hot | New | TopDay | TopWeek | TopMonth | TopYear | TopAll
deriving DecidableEq, Repr

/-- `ListingType` from `../interfaces`. -/
inductive ListingType
  | All | Subscribed | Community
deriving DecidableEq, Repr

/-- The page-local `View` enum (user.tsx lines 50-55). -/
inductive View
  | Overview | Comments | Posts | Saved
deriving DecidableEq, Repr

/-- `UserOperation` tags from `../interfaces` (the ones this page dispatches on,
plus representatives of tags the page ignores). -/
inductive UserOperation
  | GetUserDetails | EditComment | CreateComment | SaveComment
  | CreateCommentLike | CreatePostLike | BanUser | AddAdmin
  | SaveUserSettings | DeleteAccount | Login | CreatePost
deriving DecidableEq, Repr

/-- `UserView`: the profile-like snapshot record (fields from the `emptyState`
literal at user.tsx lines 82-96, plus `email` / `matrix_user_id` which the
component reads from `this.state.user`).  The source field `local` is a Lean
keyword and is embedded as `local_`. -/
structure UserView where
  id : Option Int
  name : Option String
  published : Option String
  number_of_posts : Option Int
  post_score : Option Int
  number_of_comments : Option Int
  comment_score : Option Int
  banned : Option Bool
  avatar : Option String
  show_avatars : Option Bool
  send_notifications_to_email : Option Bool
  actor_id : Option String
  local_ : Option Bool
  email : Option String
  matrix_user_id : Option String
deriving DecidableEq, Repr

/-- `CommunityUser` entries of the `follows` / `moderates` lists. -/
structure CommunityUser where
  id : Int
  community_id : Int
  community_name : String
deriving DecidableEq, Repr

/-- `Comment` content item (fields the page reads or writes). -/
structure Comment where
  id : Int
  creator_id : Int
  post_id : Int
  content : String
  published : String
  score : Int
  banned : Bool
  saved : Bool
deriving DecidableEq, Repr

/-- `Post` content item (fields the page reads or writes). -/
structure Post where
  id : Int
  creator_id : Int
  name : String
  published : String
  score : Int
  banned : Bool
  saved : Bool
deriving DecidableEq, Repr

/-- The authenticated identity `UserService.Instance.user` (claims of the JWT):
the fields user.tsx reads when seeding the settings draft.  `theme` keeps the
JavaScript falsy-string convention: the empty string stands for "unset". -/
structure MyUser where
  id : Int
  show_nsfw : Bool
  theme : String
  default_sort_type : SortType
  default_listing_type : ListingType
  lang : String
  avatar : Option String
  show_avatars : Bool
deriving DecidableEq, Repr

/-- `UserSettingsForm` (the settings draft). -/
structure UserSettingsForm where
  show_nsfw : Option Bool
  theme : Option String
  default_sort_type : Option SortType
  default_listing_type : Option ListingType
  lang : Option String
  avatar : Option String
  email : Option String
  matrix_user_id : Option String
  new_password : Option String
  new_password_verify : Option String
  old_password : Option String
  send_notifications_to_email : Option Bool
  show_avatars : Option Bool
  auth : Option String
deriving DecidableEq, Repr

/-- `DeleteAccountForm`. -/
structure DeleteAccountForm where
  password : Option String
deriving DecidableEq, Repr

/-- `GetUserDetailsForm`: the load-operation request (user.tsx lines 891-898). -/
structure GetUserDetailsForm where
  user_id : Option Int
  username : Option String
  sort : String
  saved_only : Bool
  page : Int
  limit : Int
deriving DecidableEq, Repr

/-- Modelled from the spec: `fetchLimit` lives in `../utils`, which is not part
of the excerpt under `src/`; spec section 6 calls it "page-size (fixed integer
constant)". -/
def fetchLimit : Int := 10

/-- `UserDetailsResponse` payload of the load operation. -/
structure UserDetailsResponse where
  user : UserView
  follows : List CommunityUser
  moderates : List CommunityUser
  comments : List Comment
  posts : List Post
  admins : List UserView
deriving DecidableEq, Repr

/-- `CommentResponse` payload. -/
structure CommentResponse where
  comment : Comment
deriving DecidableEq, Repr

/-- `PostResponse` payload. -/
structure PostResponse where
  post : Post
deriving DecidableEq, Repr

/-- `BanUserResponse` payload. -/
structure BanUserResponse where
  user : UserView
  banned : Bool
deriving DecidableEq, Repr

/-- `AddAdminResponse` payload. -/
structure AddAdminResponse where
  admins : List UserView
deriving DecidableEq, Repr

/-- `LoginResponse` payload (the new authenticated-identity token handed to
`UserService.Instance.login`). -/
structure LoginResponse where
  jwt : String
deriving DecidableEq, Repr

/-- The typed payload of an inbound envelope.  In TypeScript `res.data` is cast
per operation tag; the Operation Registry guarantees the shape matches the tag,
so the embedding pairs each payload with its constructor. -/
inductive WsData
  | userDetails (d : UserDetailsResponse)
  | commentRes (d : CommentResponse)
  | postRes (d : PostResponse)
  | banRes (d : BanUserResponse)
  | adminsRes (d : AddAdminResponse)
  | loginRes (d : LoginResponse)
  | noData
deriving DecidableEq, Repr

/-- `WebSocketJsonResponse`: one inbound envelope. -/
structure WsMsg where
  op : UserOperation
  data : WsData
  error : Option String
  reconnect : Bool
deriving DecidableEq, Repr

/-- The route parameters `this.props.match.params` (all optional). -/
structure PageProps where
  id : Option Int
  username : Option String
  view : Option View
  sort : Option SortType
  page : Option Int
deriving DecidableEq, Repr

/-- `UserState` (user.tsx lines 57-77), the page's ViewModel. -/
structure UserState where
  user : UserView
  user_id : Option Int
  username : Option String
  follows : List CommunityUser
  moderates : List CommunityUser
  comments : List Comment
  posts : List Post
  saved : Option (List Post)
  admins : List UserView
  view : View
  sort : SortType
  page : Int
  loading : Bool
  avatarLoading : Bool
  userSettingsForm : UserSettingsForm
  userSettingsLoading : Bool
  deleteAccountLoading : Bool
  deleteAccountShowConfirm : Bool
  deleteAccountForm : DeleteAccountForm
deriving DecidableEq, Repr

/-- `getViewFromProps` (user.tsx lines 160-164). -/
def getViewFromProps (props : PageProps) : View := props.view.getD View.Overview

/-- `getSortTypeFromProps` (user.tsx lines 166-170). -/
def getSortTypeFromProps (props : PageProps) : SortType := props.sort.getD SortType.New

/-- `getPageFromProps` (user.tsx lines 172-174). -/
def getPageFromProps (props : PageProps) : Int := props.page.getD 1

/-- The all-null `UserView` of the `emptyState` literal. -/
def emptyUserView : UserView :=
  { id := none, name := none, published := none, number_of_posts := none,
    post_score := none, number_of_comments := none, comment_score := none,
    banned := none, avatar := none, show_avatars := none,
    send_notifications_to_email := none, actor_id := none, local_ := none,
    email := none, matrix_user_id := none }

/-- The all-null `UserSettingsForm` of the `emptyState` literal. -/
def emptySettingsForm : UserSettingsForm :=
  { show_nsfw := none, theme := none, default_sort_type := none,
    default_listing_type := none, lang := none, avatar := none, email := none,
    matrix_user_id := none, new_password := none, new_password_verify := none,
    old_password := none, send_notifications_to_email := none,
    show_avatars := none, auth := none }

/-- `this.emptyState` (user.tsx lines 81-125).  The TypeScript literal has
`user_id: null, username: null`, but the constructor assigns both from the
route parameters before anything observes the state (and `this.state` aliases
`this.emptyState` at that point), so the embedding folds the assignment in.
Nullable booleans (`userSettingsLoading: null`, `deleteAccountLoading: null`)
are modelled by their falsy value `false`. -/
def emptyState (props : PageProps) : UserState :=
  { user := emptyUserView
    user_id := props.id
    username := props.username
    follows := []
    moderates := []
    comments := []
    posts := []
    saved := none
    admins := []
    view := getViewFromProps props
    sort := getSortTypeFromProps props
    page := getPageFromProps props
    loading := true
    avatarLoading := false
    userSettingsForm := emptySettingsForm
    userSettingsLoading := false
    deleteAccountLoading := false
    deleteAccountShowConfirm := false
    deleteAccountForm := { password := none } }

/-- Externally observable effects of one handler invocation: toasts shown,
navigation to `/` (`this.context.router.history.push('/')`), URLs pushed by
`updateUrl`, and the outbound requests handed to `WebSocketService` /
`UserService`. -/
structure Effects where
  toasts : List (String × String)
  navigatedHome : Bool
  pushedUrls : List String
  sentForms : List GetUserDetailsForm
  sentSettings : List UserSettingsForm
  sentDeletes : List DeleteAccountForm
  login : Option LoginResponse
deriving DecidableEq, Repr

/-- No effects. -/
def noFx : Effects :=
  { toasts := [], navigatedHome := false, pushedUrls := [], sentForms := [],
    sentSettings := [], sentDeletes := [], login := none }

/-- The TypeScript enum-name string `SortType[s]`. -/
def sortTypeName : SortType → String
  | SortType.Hot => "Hot"
  | SortType.New => "New"
  | SortType.TopDay => "TopDay"
  | SortType.TopWeek => "TopWeek"
  | SortType.TopMonth => "TopMonth"
  | SortType.TopYear => "TopYear"
  | SortType.TopAll => "TopAll"

/-- `SortType[s].toLowerCase()` as used by `updateUrl`. -/
def sortRouteName : SortType → String
  | SortType.Hot => "hot"
  | SortType.New => "new"
  | SortType.TopDay => "topday"
  | SortType.TopWeek => "topweek"
  | SortType.TopMonth => "topmonth"
  | SortType.TopYear => "topyear"
  | SortType.TopAll => "topall"

/-- `View[v].toLowerCase()` as used by `updateUrl`. -/
def viewRouteName : View → String
  | View.Overview => "overview"
  | View.Comments => "comments"
  | View.Posts => "posts"
  | View.Saved => "saved"

/-- `get isCurrentUser` (user.tsx lines 153-158), evaluated against a given
profile snapshot: the authenticated identity exists and its id equals the
snapshot's id. -/
def isCurrentUser (mu : Option MyUser) (uv : UserView) : Bool :=
  match mu with
  | some u => decide (uv.id = some u.id)
  | none => false

/-- `refetch` (user.tsx lines 890-900): the load-operation request built from
the current view parameters. -/
def refetchForm (st : UserState) : GetUserDetailsForm :=
  { user_id := st.user_id
    username := st.username
    sort := sortTypeName st.sort
    saved_only := decide (st.view = View.Saved)
    page := st.page
    limit := fetchLimit }

/-- `updateUrl` (user.tsx lines 868-874).  A null user name prints as the
string "null" in a JavaScript template literal. -/
def updateUrl (st : UserState) : String :=
  "/u/" ++ st.user.name.getD "null" ++ "/view/" ++ viewRouteName st.view ++
    "/sort/" ++ sortRouteName st.sort ++ "/page/" ++ toString st.page

/-- Modelled from the spec: `editCommentRes`, `saveCommentRes`,
`createCommentLikeRes` and `createPostLikeFindRes` live in `../utils`, which is
not part of the excerpt under `src/`.  Spec section 4.3: "finds the item by
identity key in the relevant collection and replaces only the mutated fields,
preserving position; no-op if the item is absent."  `replaceByKey` is that
find-and-replace: the first entry whose key equals the payload's key is
replaced in place; absent keys leave the list untouched. -/
def replaceByKey {α : Type} (key : α → Int) (upd : α) : List α → List α
  | [] => []
  | x :: xs => if key x = key upd then upd :: xs else x :: replaceByKey key upd xs

/-- Modelled from the spec: `editCommentRes` from `../utils` (see
`replaceByKey`). -/
def editCommentRes (d : CommentResponse) (comments : List Comment) : List Comment :=
  replaceByKey (fun c => c.id) d.comment comments

/-- Modelled from the spec: `saveCommentRes` from `../utils` (see
`replaceByKey`). -/
def saveCommentRes (d : CommentResponse) (comments : List Comment) : List Comment :=
  replaceByKey (fun c => c.id) d.comment comments

/-- Modelled from the spec: `createCommentLikeRes` from `../utils` (see
`replaceByKey`). -/
def createCommentLikeRes (d : CommentResponse) (comments : List Comment) : List Comment :=
  replaceByKey (fun c => c.id) d.comment comments

/-- Modelled from the spec: `createPostLikeFindRes` from `../utils` (see
`replaceByKey`). -/
def createPostLikeFindRes (d : PostResponse) (posts : List Post) : List Post :=
  replaceByKey (fun p => p.id) d.post posts

/-- Seeding of the settings draft on a self-view load (user.tsx lines
1092-1109): most fields come from the authenticated identity, while `email`,
`send_notifications_to_email` and `matrix_user_id` are read back from the
just-assigned `this.state.user` snapshot.  `theme` falls back to "darkly" when
the identity's theme is falsy. -/
def seedSettingsForm (u : MyUser) (loaded : UserView) (f : UserSettingsForm) :
    UserSettingsForm :=
  { f with
    show_nsfw := some u.show_nsfw
    theme := some (if u.theme = "" then "darkly" else u.theme)
    default_sort_type := some u.default_sort_type
    default_listing_type := some u.default_listing_type
    lang := some u.lang
    avatar := u.avatar
    email := loaded.email
    send_notifications_to_email := loaded.send_notifications_to_email
    show_avatars := some u.show_avatars
    matrix_user_id := loaded.matrix_user_id }

/-- `parseMessage` (user.tsx lines 1068-1163): the dispatcher.  `mu` is the
process-wide authenticated identity `UserService.Instance.user`, `props` the
route parameters (needed because the settings-save branch resets to
`this.emptyState`).  Out-of-scope side effects (console logging, document
title, scrolling, tooltip setup) are dropped. -/
def parseMessage (mu : Option MyUser) (props : PageProps) (st : UserState)
    (msg : WsMsg) : UserState × Effects :=
  match msg.error with
  | some err =>
      ({ st with deleteAccountLoading := false, avatarLoading := false,
                 userSettingsLoading := false },
       { noFx with
         toasts := [(err, "danger")]
         navigatedHome := decide (err = "couldnt_find_that_username_or_email") })
  | none =>
    if msg.reconnect then
      (st, { noFx with sentForms := [refetchForm st] })
    else
      match msg.op, msg.data with
      | UserOperation.GetUserDetails, WsData.userDetails d =>
          ({ st with
             user := d.user
             comments := d.comments
             follows := d.follows
             moderates := d.moderates
             posts := d.posts
             admins := d.admins
             loading := false
             userSettingsForm :=
               match mu with
               | some u =>
                   if decide (d.user.id = some u.id) then
                     seedSettingsForm u d.user st.userSettingsForm
                   else st.userSettingsForm
               | none => st.userSettingsForm }, noFx)
      | UserOperation.EditComment, WsData.commentRes d =>
          ({ st with comments := editCommentRes d st.comments }, noFx)
      | UserOperation.CreateComment, WsData.commentRes d =>
          (st,
           { noFx with
             toasts :=
               match mu with
               | some u =>
                   if decide (d.comment.creator_id = u.id) then [("reply_sent", "")]
                   else []
               | none => [] })
      | UserOperation.SaveComment, WsData.commentRes d =>
          ({ st with comments := saveCommentRes d st.comments }, noFx)
      | UserOperation.CreateCommentLike, WsData.commentRes d =>
          ({ st with comments := createCommentLikeRes d st.comments }, noFx)
      | UserOperation.CreatePostLike, WsData.postRes d =>
          ({ st with posts := createPostLikeFindRes d st.posts }, noFx)
      | UserOperation.BanUser, WsData.banRes d =>
          ({ st with
             comments := st.comments.map fun c =>
               if decide (some c.creator_id = d.user.id) then { c with banned := d.banned }
               else c
             posts := st.posts.map fun p =>
               if decide (some p.creator_id = d.user.id) then { p with banned := d.banned }
               else p }, noFx)
      | UserOperation.AddAdmin, WsData.adminsRes d =>
          ({ st with admins := d.admins }, noFx)
      | UserOperation.SaveUserSettings, dta =>
          ({ emptyState props with userSettingsLoading := false },
           { noFx with
             login := match dta with | WsData.loginRes d => some d | _ => none })
      | UserOperation.DeleteAccount, _ =>
          ({ st with deleteAccountLoading := false, deleteAccountShowConfirm := false },
           { noFx with navigatedHome := true })
      | _, _ => (st, noFx)

/-- `handleSortChange` (user.tsx lines 902-908): set sort, reset page to 1,
push the new URL, re-issue the load request. -/
def handleSortChange (st : UserState) (val : SortType) : UserState × Effects :=
  let st2 := { st with sort := val, page := 1 }
  (st2, { noFx with pushedUrls := [updateUrl st2], sentForms := [refetchForm st2] })

/-- `handleViewChange` (user.tsx lines 910-916). -/
def handleViewChange (st : UserState) (val : View) : UserState × Effects :=
  let st2 := { st with view := val, page := 1 }
  (st2, { noFx with pushedUrls := [updateUrl st2], sentForms := [refetchForm st2] })

/-- `nextPage` (user.tsx lines 876-881). -/
def nextPage (st : UserState) : UserState × Effects :=
  let st2 := { st with page := st.page + 1 }
  (st2, { noFx with pushedUrls := [updateUrl st2], sentForms := [refetchForm st2] })

/-- `prevPage` (user.tsx lines 883-888). -/
def prevPage (st : UserState) : UserState × Effects :=
  let st2 := { st with page := st.page - 1 }
  (st2, { noFx with pushedUrls := [updateUrl st2], sentForms := [refetchForm st2] })

/-- `handleUserSettingsSubmit` (user.tsx lines 1036-1042): set the settings
busy flag and send the draft. -/
def handleUserSettingsSubmit (st : UserState) : UserState × Effects :=
  ({ st with userSettingsLoading := true },
   { noFx with sentSettings := [st.userSettingsForm] })

/-- `handleDeleteAccount` (user.tsx lines 1060-1066): set the deletion busy
flag and send the delete form. -/
def handleDeleteAccount (st : UserState) : UserState × Effects :=
  ({ st with deleteAccountLoading := true },
   { noFx with sentDeletes := [st.deleteAccountForm] })

/-- Start of `handleImageUpload` (user.tsx lines 999-1007): the avatar busy
flag goes up before the out-of-band POST. -/
def handleImageUploadStart (st : UserState) : UserState × Effects :=
  ({ st with avatarLoading := true }, noFx)

/-- Success continuation of `handleImageUpload` (user.tsx lines 1017-1022). -/
def handleImageUploadOk (st : UserState) (url : String) : UserState × Effects :=
  ({ st with
     userSettingsForm := { st.userSettingsForm with avatar := some url }
     avatarLoading := false }, noFx)

/-- Failure continuation of `handleImageUpload` (user.tsx lines 1023-1033). -/
def handleImageUploadFail (st : UserState) (body : String) : UserState × Effects :=
  ({ st with avatarLoading := false },
   { noFx with toasts := [(body, "danger")] })

/-- Lexicographic code-point comparison of character lists: the model of
`String.prototype.localeCompare` (which on the ASCII timestamps compared here
is plain code-point order).  `jsStrLeAux a b` says the comparison does not put
`a` strictly after `b`. -/
def jsStrLeAux : List Char → List Char → Bool
  | [], _ => true
  | _ :: _, [] => false
  | c :: cs, d :: ds => if c < d then true else if d < c then false else jsStrLeAux cs ds

/-- `a.localeCompare(b) <= 0`, modelled on the underlying character lists. -/
def jsStrLe (a b : String) : Bool := jsStrLeAux a.data b.data

/-- One entry of the `combined` array built by `overview` (user.tsx lines
331-341): a tagged comment or post. -/
inductive OvItem
  | comment (c : Comment)
  | post (p : Post)
deriving DecidableEq, Repr

/-- `i.data.published` of a combined entry. -/
def OvItem.published : OvItem → String
  | OvItem.comment c => c.published
  | OvItem.post p => p.published

/-- `i.data.score` of a combined entry. -/
def OvItem.score : OvItem → Int
  | OvItem.comment c => c.score
  | OvItem.post p => p.score

/-- The unsorted `combined` array: comments first, then posts (user.tsx lines
340-341). -/
def combinedList (comments : List Comment) (posts : List Post) : List OvItem :=
  comments.map OvItem.comment ++ posts.map OvItem.post

/-- The comparator of `overview` (user.tsx lines 344-348) as an "`a` may stay
before `b`" relation: under `SortType.New` the comparator is
`b.published.localeCompare(a.published)`, otherwise `b.score - a.score`; `a`
stays before `b` exactly when the comparator is not positive. -/
def ovLe (sort : SortType) (a b : OvItem) : Bool :=
  if sort = SortType.New then jsStrLe b.published a.published
  else decide (b.score ≤ a.score)

/-- Stable insertion of `x` after every already-placed element that may stay
before it: the position a stable comparator sort assigns to a later-arriving
element. -/
def insertSorted (le : OvItem → OvItem → Bool) (x : OvItem) :
    List OvItem → List OvItem
  | [] => [x]
  | y :: ys => if le y x then y :: insertSorted le x ys else x :: y :: ys

/-- `Array.prototype.sort` with a consistent comparator: the stable sort of the
list under `le` (JavaScript array sort is specified stable). -/
def jsSort (le : OvItem → OvItem → Bool) (l : List OvItem) : List OvItem :=
  l.foldl (fun acc x => insertSorted le x acc) []

/-- `overview` (user.tsx lines 331-372), restricted to the data it computes:
the combined comments-plus-posts collection, sorted by the current sort mode's
comparator.  (The markup rendered around each entry is out of scope.) -/
def overview (st : UserState) : List OvItem :=
  jsSort (ovLe st.sort) (combinedList st.comments st.posts)

/-- One step of the page's event loop: a user action (settings submit,
account-delete submit, avatar upload start), a completion of the out-of-band
avatar upload, or an inbound envelope. -/
inductive PageEvent
  | submitSettings
  | submitDelete
  | startAvatar
  | avatarHttpOk (url : String)
  | avatarHttpFail (body : String)
  | ws (msg : WsMsg)
deriving DecidableEq, Repr

/-- Dispatch of one `PageEvent` to the handler the component binds for it. -/
def step (mu : Option MyUser) (props : PageProps) (st : UserState)
    (e : PageEvent) : UserState × Effects :=
  match e with
  | PageEvent.submitSettings => handleUserSettingsSubmit st
  | PageEvent.submitDelete => handleDeleteAccount st
  | PageEvent.startAvatar => handleImageUploadStart st
  | PageEvent.avatarHttpOk url => handleImageUploadOk st url
  | PageEvent.avatarHttpFail body => handleImageUploadFail st body
  | PageEvent.ws msg => parseMessage mu props st msg

/-- The state after the page, freshly activated (constructor, user.tsx lines
127-151), processes a sequence of events in arrival order. -/
def runPage (mu : Option MyUser) (props : PageProps) (tr : List PageEvent) :
    UserState :=
  tr.foldl (fun s e => (step mu props s e).1) (emptyState props)

/-- Does the event carry an error envelope? -/
def isErrorEnvelope : PageEvent → Bool
  | PageEvent.ws msg => msg.error.isSome
  | _ => false

/-- Is the event a settings-save success envelope (no error, no
reconnect-advisory, operation tag `SaveUserSettings`)?  The dispatcher's reset
branch fires on the tag alone. -/
def isSaveSettingsSuccess : PageEvent → Bool
  | PageEvent.ws msg =>
      msg.error.isNone && !msg.reconnect &&
        match msg.op with
        | UserOperation.SaveUserSettings => true
        | _ => false
  | _ => false

/-- Is the event an account-deletion success envelope? -/
def isDeleteAccountSuccess : PageEvent → Bool
  | PageEvent.ws msg =>
      msg.error.isNone && !msg.reconnect &&
        match msg.op with
        | UserOperation.DeleteAccount => true
        | _ => false
  | _ => false

/-- Is the event a completion (success or failure) of the out-of-band avatar
upload? -/
def isAvatarDone : PageEvent → Bool
  | PageEvent.avatarHttpOk _ => true
  | PageEvent.avatarHttpFail _ => true
  | _ => false

/-- Does the event send the settings-save request? -/
def sendsSettings : PageEvent → Bool
  | PageEvent.submitSettings => true
  | _ => false

/-- Does the event send the account-deletion request? -/
def sendsDelete : PageEvent → Bool
  | PageEvent.submitDelete => true
  | _ => false

/-- Does the event start the avatar upload? -/
def sendsAvatar : PageEvent → Bool
  | PageEvent.startAvatar => true
  | _ => false

/-- "The busy flag is true iff its request has been sent and no terminal
response for it has yet been processed", as a predicate of the event history:
the most recent send/terminal event decides the flag. -/
def pendingFlag (sends clears : PageEvent → Bool) (tr : List PageEvent) : Bool :=
  tr.foldl (fun b e => if sends e then true else if clears e then false else b) false

/-- C3 as the spec states it: terminal responses for the settings action are
its success envelope and any error envelope; likewise for deletion; the avatar
upload terminates with its HTTP completion or any error envelope. -/
def busyFlagClaim : Prop :=
  ∀ (mu : Option MyUser) (props : PageProps) (tr : List PageEvent),
    (runPage mu props tr).userSettingsLoading
        = pendingFlag sendsSettings
            (fun e => isErrorEnvelope e || isSaveSettingsSuccess e) tr
      ∧ (runPage mu props tr).deleteAccountLoading
          = pendingFlag sendsDelete
              (fun e => isErrorEnvelope e || isDeleteAccountSuccess e) tr
      ∧ (runPage mu props tr).avatarLoading
          = pendingFlag sendsAvatar
              (fun e => isErrorEnvelope e || isAvatarDone e) tr

/-- An abnormal closure of the connection, or a successful reopen. -/
inductive ConnEvent
  | closure
  | reopen
deriving DecidableEq, Repr

/-- The terminal notification a subscriber of the retried stream can observe:
a completion, or an error. -/
inductive TermSig
  | completed
  | errored
deriving DecidableEq, Repr

/-- The page's subscription pipeline (user.tsx lines 142-148):
`subject.pipe(retryWhen(errors => errors.pipe(delay(3000), take(10))))`.
`errorsSeen` counts the closure notifications consumed by `take`, `retries`
the resubscriptions it scheduled (each after `retryDelayMs`), `terminal` the
notification delivered to the subscriber once the pipeline ends.  The
`errors` notifier is subscribed once for the lifetime of the subscription, so
its `take` counter persists across successful reopens; when `take` forwards
its 10th value it completes, and `retryWhen` forwards that completion (not an
error) to the subscriber. -/
structure RetrySub where
  errorsSeen : Nat
  retries : List Nat
  terminal : Option TermSig
deriving DecidableEq, Repr

/-- `take(10)`. -/
def retryBound : Nat := 10

/-- `delay(3000)`. -/
def retryDelayMs : Nat := 3000

/-- The freshly created subscription. -/
def initialRetrySub : RetrySub :=
  { errorsSeen := 0, retries := [], terminal := none }

/-- One connection-lifecycle event against the subscription pipeline.  After a
terminal notification nothing changes; a closure below the `take` bound
schedules a delayed resubscription; the closure that reaches the bound also
completes the notifier and with it the subscriber's stream. -/
def stepConn (s : RetrySub) (e : ConnEvent) : RetrySub :=
  if s.terminal.isSome then s
  else
    match e with
    | ConnEvent.closure =>
        { errorsSeen := s.errorsSeen + 1
          retries := s.retries ++ [retryDelayMs]
          terminal :=
            if retryBound ≤ s.errorsSeen + 1 then some TermSig.completed else none }
    | ConnEvent.reopen => s

/-- The subscription state after a sequence of connection-lifecycle events. -/
def runConn (tr : List ConnEvent) : RetrySub :=
  tr.foldl stepConn initialRetrySub

/-- The number of closures in a trace. -/
def countClosures (tr : List ConnEvent) : Nat :=
  tr.foldl (fun n e => match e with | ConnEvent.closure => n + 1 | ConnEvent.reopen => n) 0

/-- The length of the longest run of consecutive closures in a trace. -/
def maxClosureRun (tr : List ConnEvent) : Nat :=
  (tr.foldl
    (fun p e =>
      match e with
      | ConnEvent.closure => (p.1 + 1, max p.2 (p.1 + 1))
      | ConnEvent.reopen => (0, p.2))
    ((0 : Nat), (0 : Nat))).2

/-- C7 as the spec states it: below-bound runs of consecutive failures never
terminate the stream (the attempt count having been reset by each successful
reopen), reaching the bound surfaces a fatal connection error to the
subscriber, and a successful reopen resets the attempt counter to zero. -/
def retryResetClaim : Prop :=
  (∀ tr : List ConnEvent, maxClosureRun tr < retryBound → (runConn tr).terminal = none)
    ∧ (∀ tr : List ConnEvent, retryBound ≤ maxClosureRun tr →
        (runConn tr).terminal = some TermSig.errored)
    ∧ (∀ tr : List ConnEvent, (runConn (tr ++ [ConnEvent.reopen])).errorsSeen = 0)

/-- C8 as the spec states it: sort changes, view-category changes and explicit
page navigation each set the loading busy flag (besides resetting / moving the
page index, sending the rebuilt request and pushing the new location). -/
def paramChangeClaim : Prop :=
  ∀ (st : UserState) (s : SortType) (v : View),
    ((handleSortChange st s).1.page = 1 ∧ (handleSortChange st s).1.loading = true
        ∧ (handleSortChange st s).2.sentForms = [refetchForm (handleSortChange st s).1]
        ∧ (handleSortChange st s).2.pushedUrls = [updateUrl (handleSortChange st s).1])
      ∧ ((handleViewChange st v).1.page = 1 ∧ (handleViewChange st v).1.loading = true
        ∧ (handleViewChange st v).2.sentForms = [refetchForm (handleViewChange st v).1]
        ∧ (handleViewChange st v).2.pushedUrls = [updateUrl (handleViewChange st v).1])
      ∧ ((nextPage st).1.page = st.page + 1 ∧ (nextPage st).1.loading = true
        ∧ (nextPage st).2.sentForms = [refetchForm (nextPage st).1]
        ∧ (nextPage st).2.pushedUrls = [updateUrl (nextPage st).1])

/-! Concrete sample data used by the witness theorems. -/

/-- Sample route parameters: the page was activated as `/u/42`. -/
def props0 : PageProps :=
  { id := some 42, username := none, view := none, sort := none, page := none }

/-- A sample comment by creator 7. -/
def comment1 : Comment :=
  { id := 1, creator_id := 7, post_id := 3, content := "first", published := "2020-01-05",
    score := 2, banned := false, saved := false }

/-- A sample comment by creator 8. -/
def comment2 : Comment :=
  { id := 2, creator_id := 8, post_id := 3, content := "second", published := "2020-01-06",
    score := 9, banned := false, saved := false }

/-- A sample post by creator 7. -/
def post1 : Post :=
  { id := 10, creator_id := 7, name := "ten", published := "2020-01-01",
    score := 5, banned := false, saved := false }

/-- A sample post by creator 8. -/
def post2 : Post :=
  { id := 11, creator_id := 8, name := "eleven", published := "2020-01-01",
    score := 3, banned := false, saved := false }

/-- A sample loaded profile snapshot for user 42. -/
def userView42 : UserView :=
  { emptyUserView with id := some 42, name := some "alice", email := some "a@b.c",
                       send_notifications_to_email := some true,
                       matrix_user_id := some "@alice:m" }

/-- A sample authenticated identity with id 42. -/
def myUser42 : MyUser :=
  { id := 42, show_nsfw := true, theme := "", default_sort_type := SortType.Hot,
    default_listing_type := ListingType.All, lang := "en", avatar := some "av",
    show_avatars := false }

/-- A sample populated page state. -/
def sampleState : UserState :=
  { emptyState props0 with
    user := userView42
    comments := [comment1, comment2]
    posts := [post1, post2]
    page := 3
    loading := false }

/-- A sample load-operation response. -/
def details42 : UserDetailsResponse :=
  { user := userView42, follows := [], moderates := [],
    comments := [comment1, comment2], posts := [post1, post2], admins := [] }

/-- C1: for every inbound envelope whose error field is set, processing it
clears all three mutation busy flags, surfaces the error key as a (danger)
notification, and triggers navigation-away exactly when the key is
"couldnt_find_that_username_or_email"; no other effect is emitted, so for
every other error key the page keeps listening. -/
theorem error_envelope_policy (mu : Option MyUser) (props : PageProps)
    (st : UserState) (msg : WsMsg) (e : String) (h : msg.error = some e) :
    (parseMessage mu props st msg).1.deleteAccountLoading = false
      ∧ (parseMessage mu props st msg).1.avatarLoading = false
      ∧ (parseMessage mu props st msg).1.userSettingsLoading = false
      ∧ (parseMessage mu props st msg).2.toasts = [(e, "danger")]
      ∧ ((parseMessage mu props st msg).2.navigatedHome = true
          ↔ e = "couldnt_find_that_username_or_email") := by
  simp [parseMessage, h, noFx]

/-- Witness for C1 at the fatal key. -/
theorem error_envelope_policy_witness :
    (parseMessage none props0 sampleState
        (WsMsg.mk UserOperation.GetUserDetails WsData.noData
          (some "couldnt_find_that_username_or_email") false)).1.deleteAccountLoading = false
      ∧ (parseMessage none props0 sampleState
          (WsMsg.mk UserOperation.GetUserDetails WsData.noData
            (some "couldnt_find_that_username_or_email") false)).1.avatarLoading = false
      ∧ (parseMessage none props0 sampleState
          (WsMsg.mk UserOperation.GetUserDetails WsData.noData
            (some "couldnt_find_that_username_or_email") false)).1.userSettingsLoading = false
      ∧ (parseMessage none props0 sampleState
          (WsMsg.mk UserOperation.GetUserDetails WsData.noData
            (some "couldnt_find_that_username_or_email") false)).2.toasts
          = [("couldnt_find_that_username_or_email", "danger")]
      ∧ ((parseMessage none props0 sampleState
          (WsMsg.mk UserOperation.GetUserDetails WsData.noData
            (some "couldnt_find_that_username_or_email") false)).2.navigatedHome = true
          ↔ "couldnt_find_that_username_or_email" = "couldnt_find_that_username_or_email") :=
  error_envelope_policy none props0 sampleState _ _ rfl

/-- C10: processing an error envelope leaves every part of the ViewModel other
than the three mutation busy flags unchanged; in particular the loading flag
keeps its prior value. -/
theorem error_envelope_frame (mu : Option MyUser) (props : PageProps)
    (st : UserState) (msg : WsMsg) (e : String) (h : msg.error = some e) :
    (parseMessage mu props st msg).1.user = st.user
      ∧ (parseMessage mu props st msg).1.user_id = st.user_id
      ∧ (parseMessage mu props st msg).1.username = st.username
      ∧ (parseMessage mu props st msg).1.follows = st.follows
      ∧ (parseMessage mu props st msg).1.moderates = st.moderates
      ∧ (parseMessage mu props st msg).1.comments = st.comments
      ∧ (parseMessage mu props st msg).1.posts = st.posts
      ∧ (parseMessage mu props st msg).1.saved = st.saved
      ∧ (parseMessage mu props st msg).1.admins = st.admins
      ∧ (parseMessage mu props st msg).1.view = st.view
      ∧ (parseMessage mu props st msg).1.sort = st.sort
      ∧ (parseMessage mu props st msg).1.page = st.page
      ∧ (parseMessage mu props st msg).1.loading = st.loading
      ∧ (parseMessage mu props st msg).1.userSettingsForm = st.userSettingsForm
      ∧ (parseMessage mu props st msg).1.deleteAccountShowConfirm = st.deleteAccountShowConfirm
      ∧ (parseMessage mu props st msg).1.deleteAccountForm = st.deleteAccountForm := by
  simp [parseMessage, h]

/-- Witness for C10: an error arriving right after activation, before any
load response, leaves the freshly created state (whose loading flag is true)
untouched apart from the busy flags. -/
theorem error_envelope_frame_witness :
    (parseMessage none props0 (emptyState props0)
        (WsMsg.mk UserOperation.GetUserDetails WsData.noData (some "rate_limit_error") false)).1.user
        = (emptyState props0).user
      ∧ (parseMessage none props0 (emptyState props0)
          (WsMsg.mk UserOperation.GetUserDetails WsData.noData (some "rate_limit_error") false)).1.user_id
          = (emptyState props0).user_id
      ∧ (parseMessage none props0 (emptyState props0)
          (WsMsg.mk UserOperation.GetUserDetails WsData.noData (some "rate_limit_error") false)).1.username
          = (emptyState props0).username
      ∧ (parseMessage none props0 (emptyState props0)
          (WsMsg.mk UserOperation.GetUserDetails WsData.noData (some "rate_limit_error") false)).1.follows
          = (emptyState props0).follows
      ∧ (parseMessage none props0 (emptyState props0)
          (WsMsg.mk UserOperation.GetUserDetails WsData.noData (some "rate_limit_error") false)).1.moderates
          = (emptyState props0).moderates
      ∧ (parseMessage none props0 (emptyState props0)
          (WsMsg.mk UserOperation.GetUserDetails WsData.noData (some "rate_limit_error") false)).1.comments
          = (emptyState props0).comments
      ∧ (parseMessage none props0 (emptyState props0)
          (WsMsg.mk UserOperation.GetUserDetails WsData.noData (some "rate_limit_error") false)).1.posts
          = (emptyState props0).posts
      ∧ (parseMessage none props0 (emptyState props0)
          (WsMsg.mk UserOperation.GetUserDetails WsData.noData (some "rate_limit_error") false)).1.saved
          = (emptyState props0).saved
      ∧ (parseMessage none props0 (emptyState props0)
          (WsMsg.mk UserOperation.GetUserDetails WsData.noData (some "rate_limit_error") false)).1.admins
          = (emptyState props0).admins
      ∧ (parseMessage none props0 (emptyState props0)
          (WsMsg.mk UserOperation.GetUserDetails WsData.noData (some "rate_limit_error") false)).1.view
          = (emptyState props0).view
      ∧ (parseMessage none props0 (emptyState props0)
          (WsMsg.mk UserOperation.GetUserDetails WsData.noData (some "rate_limit_error") false)).1.sort
          = (emptyState props0).sort
      ∧ (parseMessage none props0 (emptyState props0)
          (WsMsg.mk UserOperation.GetUserDetails WsData.noData (some "rate_limit_error") false)).1.page
          = (emptyState props0).page
      ∧ (parseMessage none props0 (emptyState props0)
          (WsMsg.mk UserOperation.GetUserDetails WsData.noData (some "rate_limit_error") false)).1.loading
          = (emptyState props0).loading
      ∧ (parseMessage none props0 (emptyState props0)
          (WsMsg.mk UserOperation.GetUserDetails WsData.noData (some "rate_limit_error") false)).1.userSettingsForm
          = (emptyState props0).userSettingsForm
      ∧ (parseMessage none props0 (emptyState props0)
          (WsMsg.mk UserOperation.GetUserDetails WsData.noData (some "rate_limit_error") false)).1.deleteAccountShowConfirm
          = (emptyState props0).deleteAccountShowConfirm
      ∧ (parseMessage none props0 (emptyState props0)
          (WsMsg.mk UserOperation.GetUserDetails WsData.noData (some "rate_limit_error") false)).1.deleteAccountForm
          = (emptyState props0).deleteAccountForm :=
  error_envelope_frame none props0 (emptyState props0) _ _ rfl

/-- The state after processing a load-operation response (abbreviation used by
the C2 theorem). -/
def afterLoad (mu : Option MyUser) (props : PageProps) (st : UserState)
    (d : UserDetailsResponse) : UserState :=
  (parseMessage mu props st
    (WsMsg.mk UserOperation.GetUserDetails (WsData.userDetails d) none false)).1

/-- C2: a load-operation response replaces the target snapshot, both content
collections, the follows / moderates lists and the admin list together in the
one dispatch step, clears the loading flag, and seeds the settings draft from
the authenticated identity's profile exactly when the loaded target is the
authenticated identity itself (otherwise the draft keeps its prior value). -/
theorem load_response_atomic_replace (mu : Option MyUser) (props : PageProps)
    (st : UserState) (d : UserDetailsResponse) :
    (afterLoad mu props st d).user = d.user
      ∧ (afterLoad mu props st d).comments = d.comments
      ∧ (afterLoad mu props st d).posts = d.posts
      ∧ (afterLoad mu props st d).follows = d.follows
      ∧ (afterLoad mu props st d).moderates = d.moderates
      ∧ (afterLoad mu props st d).admins = d.admins
      ∧ (afterLoad mu props st d).loading = false
      ∧ (∀ u : MyUser, mu = some u → d.user.id = some u.id →
          (afterLoad mu props st d).userSettingsForm
            = { st.userSettingsForm with
                show_nsfw := some u.show_nsfw
                theme := some (if u.theme = "" then "darkly" else u.theme)
                default_sort_type := some u.default_sort_type
                default_listing_type := some u.default_listing_type
                lang := some u.lang
                avatar := u.avatar
                email := d.user.email
                send_notifications_to_email := d.user.send_notifications_to_email
                show_avatars := some u.show_avatars
                matrix_user_id := d.user.matrix_user_id })
      ∧ (isCurrentUser mu d.user = false →
          (afterLoad mu props st d).userSettingsForm = st.userSettingsForm) := by
  refine ⟨rfl, rfl, rfl, rfl, rfl, rfl, rfl, ?_, ?_⟩
  · intro u hu hid
    subst hu
    simp [afterLoad, parseMessage, hid, seedSettingsForm]
  · intro hfalse
    cases mu with
    | none => simp [afterLoad, parseMessage]
    | some u =>
      simp only [isCurrentUser, decide_eq_false_iff_not] at hfalse
      simp [afterLoad, parseMessage, hfalse]

/-- Witness for C2: loading user 42 while logged in as user 42 seeds the
draft. -/
theorem load_response_atomic_replace_witness :
    (afterLoad (some myUser42) props0 sampleState details42).user = details42.user
      ∧ (afterLoad (some myUser42) props0 sampleState details42).userSettingsForm
          = { sampleState.userSettingsForm with
              show_nsfw := some myUser42.show_nsfw
              theme := some (if myUser42.theme = "" then "darkly" else myUser42.theme)
              default_sort_type := some myUser42.default_sort_type
              default_listing_type := some myUser42.default_listing_type
              lang := some myUser42.lang
              avatar := myUser42.avatar
              email := details42.user.email
              send_notifications_to_email := details42.user.send_notifications_to_email
              show_avatars := some myUser42.show_avatars
              matrix_user_id := details42.user.matrix_user_id } :=
  ⟨(load_response_atomic_replace (some myUser42) props0 sampleState details42).1,
   (load_response_atomic_replace (some myUser42) props0 sampleState details42).2.2.2.2.2.2.2.1
     myUser42 rfl (by decide)⟩

/-- C6: a settings-save success envelope resets the whole ViewModel to the
empty/initial shape (all collections empty, loading true), clears the settings
busy flag, and hands the new authenticated-identity response to the
process-wide identity context. -/
theorem settings_save_reset (mu : Option MyUser) (props : PageProps)
    (st : UserState) (d : LoginResponse) :
    parseMessage mu props st
        (WsMsg.mk UserOperation.SaveUserSettings (WsData.loginRes d) none false)
      = ({ emptyState props with userSettingsLoading := false },
         { noFx with login := some d })
      ∧ (parseMessage mu props st
          (WsMsg.mk UserOperation.SaveUserSettings (WsData.loginRes d) none false)).1.comments = []
      ∧ (parseMessage mu props st
          (WsMsg.mk UserOperation.SaveUserSettings (WsData.loginRes d) none false)).1.posts = []
      ∧ (parseMessage mu props st
          (WsMsg.mk UserOperation.SaveUserSettings (WsData.loginRes d) none false)).1.follows = []
      ∧ (parseMessage mu props st
          (WsMsg.mk UserOperation.SaveUserSettings (WsData.loginRes d) none false)).1.moderates = []
      ∧ (parseMessage mu props st
          (WsMsg.mk UserOperation.SaveUserSettings (WsData.loginRes d) none false)).1.admins = []
      ∧ (parseMessage mu props st
          (WsMsg.mk UserOperation.SaveUserSettings (WsData.loginRes d) none false)).1.loading = true
      ∧ (parseMessage mu props st
          (WsMsg.mk UserOperation.SaveUserSettings (WsData.loginRes d) none false)).1.userSettingsLoading = false
      ∧ (parseMessage mu props st
          (WsMsg.mk UserOperation.SaveUserSettings (WsData.loginRes d) none false)).2.login = some d := by
  exact ⟨rfl, rfl, rfl, rfl, rfl, rfl, rfl, rfl, rfl⟩

/-- The state after processing a ban-operation payload (abbreviation used by
the C4 theorem). -/
def afterBan (mu : Option MyUser) (props : PageProps) (st : UserState)
    (d : BanUserResponse) : UserState :=
  (parseMessage mu props st
    (WsMsg.mk UserOperation.BanUser (WsData.banRes d) none false)).1

/-- C4: a ban-operation payload sets the banned field to the payload's value
on every entry of both content collections whose creator identity equals the
payload's subject id, changes no entry whose creator differs, and keeps both
collections' lengths and entry positions. -/
theorem ban_flips_creator_matches (mu : Option MyUser) (props : PageProps)
    (st : UserState) (d : BanUserResponse) :
    (afterBan mu props st d).comments.length = st.comments.length
      ∧ (afterBan mu props st d).posts.length = st.posts.length
      ∧ (∀ (i : Nat) (c : Comment), st.comments[i]? = some c →
          some c.creator_id = d.user.id →
          (afterBan mu props st d).comments[i]? = some { c with banned := d.banned })
      ∧ (∀ (i : Nat) (c : Comment), st.comments[i]? = some c →
          some c.creator_id ≠ d.user.id →
          (afterBan mu props st d).comments[i]? = some c)
      ∧ (∀ (i : Nat) (p : Post), st.posts[i]? = some p →
          some p.creator_id = d.user.id →
          (afterBan mu props st d).posts[i]? = some { p with banned := d.banned })
      ∧ (∀ (i : Nat) (p : Post), st.posts[i]? = some p →
          some p.creator_id ≠ d.user.id →
          (afterBan mu props st d).posts[i]? = some p) := by
  refine ⟨?_, ?_, ?_, ?_, ?_, ?_⟩
  · simp [afterBan, parseMessage]
  · simp [afterBan, parseMessage]
  · intro i c hi hc
    simp [afterBan, parseMessage, List.getElem?_map, hi, hc]
  · intro i c hi hc
    simp [afterBan, parseMessage, List.getElem?_map, hi, hc]
  · intro i p hi hp
    simp [afterBan, parseMessage, List.getElem?_map, hi, hp]
  · intro i p hi hp
    simp [afterBan, parseMessage, List.getElem?_map, hi, hp]

/-- Witness for C4: banning user 7 flips `comment1` and `post1` (creator 7)
and leaves `comment2` and `post2` (creator 8) alone. -/
theorem ban_flips_creator_matches_witness :
    (afterBan none props0 sampleState
        (BanUserResponse.mk { emptyUserView with id := some 7 } true)).comments[0]?
        = some { comment1 with banned := true }
      ∧ (afterBan none props0 sampleState
          (BanUserResponse.mk { emptyUserView with id := some 7 } true)).comments[1]?
          = some comment2
      ∧ (afterBan none props0 sampleState
          (BanUserResponse.mk { emptyUserView with id := some 7 } true)).posts[0]?
          = some { post1 with banned := true }
      ∧ (afterBan none props0 sampleState
          (BanUserResponse.mk { emptyUserView with id := some 7 } true)).posts[1]?
          = some post2 :=
  ⟨(ban_flips_creator_matches none props0 sampleState _).2.2.1 0 comment1 rfl (by decide),
   (ban_flips_creator_matches none props0 sampleState _).2.2.2.1 1 comment2 rfl (by decide),
   (ban_flips_creator_matches none props0 sampleState _).2.2.2.2.1 0 post1 rfl (by decide),
   (ban_flips_creator_matches none props0 sampleState _).2.2.2.2.2 1 post2 rfl (by decide)⟩

/-- `replaceByKey` preserves the collection's length. -/
theorem replaceByKey_length {α : Type} (key : α → Int) (upd : α) (l : List α) :
    (replaceByKey key upd l).length = l.length := by
  induction l with
  | nil => rfl
  | cons x xs ih =>
    rw [replaceByKey]
    split
    · rfl
    · simpa using ih

/-- `replaceByKey` is a no-op when no entry carries the payload's key. -/
theorem replaceByKey_of_absent {α : Type} (key : α → Int) (upd : α) (l : List α)
    (h : ∀ x ∈ l, key x ≠ key upd) : replaceByKey key upd l = l := by
  induction l with
  | nil => rfl
  | cons x xs ih =>
    rw [replaceByKey, if_neg (h x (List.mem_cons_self x xs))]
    rw [ih fun y hy => h y (List.mem_cons_of_mem x hy)]

/-- `replaceByKey` keeps, at its position, every entry whose key differs from
the payload's. -/
theorem replaceByKey_getElem?_ne {α : Type} (key : α → Int) (upd : α)
    (l : List α) (i : Nat) (a : α) (hi : l[i]? = some a)
    (hne : key a ≠ key upd) : (replaceByKey key upd l)[i]? = some a := by
  induction l generalizing i with
  | nil => simp at hi
  | cons x xs ih =>
    cases i with
    | zero =>
      simp only [List.getElem?_cons_zero, Option.some_inj] at hi
      subst hi
      rw [replaceByKey, if_neg hne]
      simp
    | succ j =>
      simp only [List.getElem?_cons_succ] at hi
      rw [replaceByKey]
      split
      · simpa using hi
      · simpa using ih j hi

/-- `replaceByKey` replaces, in place, the first entry whose key equals the
payload's. -/
theorem replaceByKey_getElem?_eq {α : Type} (key : α → Int) (upd : α)
    (l : List α) (i : Nat) (a : α) (hi : l[i]? = some a)
    (ha : key a = key upd)
    (hfirst : ∀ (j : Nat) (b : α), j < i → l[j]? = some b → key b ≠ key upd) :
    (replaceByKey key upd l)[i]? = some upd := by
  induction l generalizing i with
  | nil => simp at hi
  | cons x xs ih =>
    cases i with
    | zero =>
      simp only [List.getElem?_cons_zero, Option.some_inj] at hi
      subst hi
      rw [replaceByKey, if_pos ha]
      simp
    | succ j =>
      simp only [List.getElem?_cons_succ] at hi
      have hx : key x ≠ key upd :=
        hfirst 0 x (Nat.succ_pos j) (by simp)
      rw [replaceByKey, if_neg hx]
      simpa using ih j hi fun k b hk hb =>
        hfirst (k + 1) b (Nat.succ_lt_succ hk) (by simpa using hb)

/-- The comments collection after processing a comment-carrying item-update
envelope with operation tag `op` (abbreviation used by the C5 theorem). -/
def afterCommentUpdate (mu : Option MyUser) (props : PageProps) (st : UserState)
    (op : UserOperation) (c : Comment) : List Comment :=
  (parseMessage mu props st
    (WsMsg.mk op (WsData.commentRes (CommentResponse.mk c)) none false)).1.comments

/-- The posts collection after processing a post-like envelope (abbreviation
used by the C5 theorem). -/
def afterPostUpdate (mu : Option MyUser) (props : PageProps) (st : UserState)
    (p : Post) : List Post :=
  (parseMessage mu props st
    (WsMsg.mk UserOperation.CreatePostLike (WsData.postRes (PostResponse.mk p)) none
      false)).1.posts

/-- C5: for each item-update envelope (EditComment, SaveComment,
CreateCommentLike on the comments collection; CreatePostLike on the posts
collection), a payload whose identity key matches an existing entry replaces
that entry in place, changing neither the collection's length nor the other
entries' positions, and a payload matching no entry leaves the collection
unchanged, never inserting a duplicate. -/
theorem item_update_in_place (mu : Option MyUser) (props : PageProps)
    (st : UserState) (op : UserOperation)
    (hop : op = UserOperation.EditComment ∨ op = UserOperation.SaveComment
      ∨ op = UserOperation.CreateCommentLike)
    (c : Comment) (p : Post) :
    (afterCommentUpdate mu props st op c).length = st.comments.length
      ∧ ((∀ x ∈ st.comments, x.id ≠ c.id) →
          afterCommentUpdate mu props st op c = st.comments)
      ∧ (∀ (i : Nat) (a : Comment), st.comments[i]? = some a → a.id ≠ c.id →
          (afterCommentUpdate mu props st op c)[i]? = some a)
      ∧ (∀ (i : Nat) (a : Comment), st.comments[i]? = some a → a.id = c.id →
          (∀ (j : Nat) (b : Comment), j < i → st.comments[j]? = some b → b.id ≠ c.id) →
          (afterCommentUpdate mu props st op c)[i]? = some c)
      ∧ (afterPostUpdate mu props st p).length = st.posts.length
      ∧ ((∀ x ∈ st.posts, x.id ≠ p.id) → afterPostUpdate mu props st p = st.posts)
      ∧ (∀ (i : Nat) (a : Post), st.posts[i]? = some a → a.id ≠ p.id →
          (afterPostUpdate mu props st p)[i]? = some a)
      ∧ (∀ (i : Nat) (a : Post), st.posts[i]? = some a → a.id = p.id →
          (∀ (j : Nat) (b : Post), j < i → st.posts[j]? = some b → b.id ≠ p.id) →
          (afterPostUpdate mu props st p)[i]? = some p) := by
  have hc : afterCommentUpdate mu props st op c
      = replaceByKey (fun x => x.id) c st.comments := by
    rcases hop with rfl | rfl | rfl
    · rfl
    · rfl
    · rfl
  have hp : afterPostUpdate mu props st p
      = replaceByKey (fun x => x.id) p st.posts := rfl
  rw [hc, hp]
  exact ⟨replaceByKey_length _ _ _,
    fun h => replaceByKey_of_absent _ _ _ h,
    fun i a hi hne => replaceByKey_getElem?_ne _ _ _ i a hi hne,
    fun i a hi heq hfirst => replaceByKey_getElem?_eq _ _ _ i a hi heq hfirst,
    replaceByKey_length _ _ _,
    fun h => replaceByKey_of_absent _ _ _ h,
    fun i a hi hne => replaceByKey_getElem?_ne _ _ _ i a hi hne,
    fun i a hi heq hfirst => replaceByKey_getElem?_eq _ _ _ i a hi heq hfirst⟩

/-- Witness for C5: an EditComment payload with id 1 replaces `comment1` at
position 0 and keeps `comment2` at position 1; a payload with the absent id
99 is a no-op. -/
theorem item_update_in_place_witness :
    (afterCommentUpdate none props0 sampleState UserOperation.EditComment
        { comment1 with content := "edited" })[0]?
        = some { comment1 with content := "edited" }
      ∧ (afterCommentUpdate none props0 sampleState UserOperation.EditComment
          { comment1 with content := "edited" })[1]? = some comment2
      ∧ afterCommentUpdate none props0 sampleState UserOperation.EditComment
          { comment1 with id := 99 } = sampleState.comments
      ∧ (afterPostUpdate none props0 sampleState { post1 with score := 6 })[0]?
          = some { post1 with score := 6 } :=
  ⟨(item_update_in_place none props0 sampleState UserOperation.EditComment
      (Or.inl rfl) { comment1 with content := "edited" } post1).2.2.2.1 0 comment1 rfl
      (by decide) (fun j b hj => by omega),
   (item_update_in_place none props0 sampleState UserOperation.EditComment
      (Or.inl rfl) { comment1 with content := "edited" } post1).2.2.1 1 comment2 rfl
      (by decide),
   (item_update_in_place none props0 sampleState UserOperation.EditComment
      (Or.inl rfl) { comment1 with id := 99 } post1).2.1 (by decide),
   (item_update_in_place none props0 sampleState UserOperation.EditComment
      (Or.inl rfl) comment1 { post1 with score := 6 }).2.2.2.2.2.2.2 0 post1 rfl
      (by decide) (fun j b hj => by omega)⟩

/-- C8 counterexample: on a loaded state (loading already false), a sort
change leaves the loading flag false — no handler among `handleSortChange`,
`handleViewChange`, `nextPage`, `prevPage` ever sets it — so the claim that
every parameter change sets the loading busy flag is false. -/
theorem param_change_claim_cex :
    sampleState.loading = false
      ∧ (handleSortChange sampleState SortType.TopAll).1.loading = false
      ∧ (handleViewChange sampleState View.Posts).1.loading = false
      ∧ (nextPage sampleState).1.loading = false
      ∧ ¬ paramChangeClaim :=
  ⟨by decide, by decide, by decide, by decide,
   fun h => absurd ((h sampleState SortType.TopAll View.Posts).1.2.1) (by decide)⟩

/-- C8 (amended): every change of view-category or sort-mode resets the page
index to 1, sends a new load request built from the now-current parameters and
pushes the updated location descriptor; explicit page navigation changes only
the page index the same way; none of these handlers touches the loading flag,
which keeps its prior value. -/
theorem param_change_behavior (st : UserState) (s : SortType) (v : View) :
    ((handleSortChange st s).1 = { st with sort := s, page := 1 }
        ∧ (handleSortChange st s).1.loading = st.loading
        ∧ (handleSortChange st s).2.sentForms = [refetchForm (handleSortChange st s).1]
        ∧ (handleSortChange st s).2.pushedUrls = [updateUrl (handleSortChange st s).1])
      ∧ ((handleViewChange st v).1 = { st with view := v, page := 1 }
        ∧ (handleViewChange st v).1.loading = st.loading
        ∧ (handleViewChange st v).2.sentForms = [refetchForm (handleViewChange st v).1]
        ∧ (handleViewChange st v).2.pushedUrls = [updateUrl (handleViewChange st v).1])
      ∧ ((nextPage st).1 = { st with page := st.page + 1 }
        ∧ (nextPage st).1.loading = st.loading
        ∧ (nextPage st).2.sentForms = [refetchForm (nextPage st).1]
        ∧ (nextPage st).2.pushedUrls = [updateUrl (nextPage st).1])
      ∧ ((prevPage st).1 = { st with page := st.page - 1 }
        ∧ (prevPage st).1.loading = st.loading
        ∧ (prevPage st).2.sentForms = [refetchForm (prevPage st).1]
        ∧ (prevPage st).2.pushedUrls = [updateUrl (prevPage st).1]) :=
  ⟨⟨rfl, rfl, rfl, rfl⟩, ⟨rfl, rfl, rfl, rfl⟩, ⟨rfl, rfl, rfl, rfl⟩, ⟨rfl, rfl, rfl, rfl⟩⟩

/-- The subscription pipeline state after `k` closure notifications have ever
been fed to the `take`-bounded notifier. -/
def mkRetrySub (k : Nat) : RetrySub :=
  { errorsSeen := min k retryBound
    retries := List.replicate (min k retryBound) retryDelayMs
    terminal := if retryBound ≤ k then some TermSig.completed else none }

/-- A closure advances the cumulative closure count by one. -/
theorem stepConn_mk_closure (k : Nat) :
    stepConn (mkRetrySub k) ConnEvent.closure = mkRetrySub (k + 1) := by
  by_cases hk : retryBound ≤ k
  · have h1 : min k retryBound = retryBound := Nat.min_eq_right hk
    have h2 : retryBound ≤ k + 1 := Nat.le_succ_of_le hk
    have h3 : min (k + 1) retryBound = retryBound := Nat.min_eq_right h2
    simp [stepConn, mkRetrySub, hk, h1, h2, h3]
  · have hk' : k < retryBound := Nat.lt_of_not_le hk
    have h1 : min k retryBound = k := Nat.min_eq_left (Nat.le_of_lt hk')
    have h3 : min (k + 1) retryBound = k + 1 := Nat.min_eq_left hk'
    simp [stepConn, mkRetrySub, hk, h1, h3, List.replicate_succ']

/-- A successful reopen leaves the pipeline state untouched — in particular it
does not reset the cumulative count. -/
theorem stepConn_mk_reopen (k : Nat) :
    stepConn (mkRetrySub k) ConnEvent.reopen = mkRetrySub k := by
  unfold stepConn
  split
  · rfl
  · rfl

/-- The number of closures in a connection-lifecycle trace. -/
def countClosuresRec : List ConnEvent → Nat
  | [] => 0
  | ConnEvent.closure :: tr => countClosuresRec tr + 1
  | ConnEvent.reopen :: tr => countClosuresRec tr

/-- Folding the pipeline over a trace just accumulates the closure count. -/
theorem foldl_stepConn_mk (tr : List ConnEvent) :
    ∀ k : Nat, tr.foldl stepConn (mkRetrySub k) = mkRetrySub (k + countClosuresRec tr) := by
  induction tr with
  | nil => intro k; simp [countClosuresRec]
  | cons e tr ih =>
    intro k
    cases e with
    | closure =>
      rw [List.foldl_cons, stepConn_mk_closure, ih, countClosuresRec]
      ring_nf
    | reopen =>
      rw [List.foldl_cons, stepConn_mk_reopen, ih, countClosuresRec]

/-- C7 counterexample: ten closures each immediately followed by a successful
reopen (every consecutive-failure run has length 1, far below the bound of 10)
still terminate the stream, because the `take(10)` counter in the `retryWhen`
notifier is never reset by a reopen; and when the bound is reached the
subscriber observes a completion, never a fatal error notification.  Already
after one closure-reopen pair the attempt counter sits at 1, not 0. -/
theorem retry_reset_claim_cex :
    maxClosureRun
        [ConnEvent.closure, ConnEvent.reopen, ConnEvent.closure, ConnEvent.reopen,
         ConnEvent.closure, ConnEvent.reopen, ConnEvent.closure, ConnEvent.reopen,
         ConnEvent.closure, ConnEvent.reopen, ConnEvent.closure, ConnEvent.reopen,
         ConnEvent.closure, ConnEvent.reopen, ConnEvent.closure, ConnEvent.reopen,
         ConnEvent.closure, ConnEvent.reopen, ConnEvent.closure, ConnEvent.reopen] = 1
      ∧ (runConn
          [ConnEvent.closure, ConnEvent.reopen, ConnEvent.closure, ConnEvent.reopen,
           ConnEvent.closure, ConnEvent.reopen, ConnEvent.closure, ConnEvent.reopen,
           ConnEvent.closure, ConnEvent.reopen, ConnEvent.closure, ConnEvent.reopen,
           ConnEvent.closure, ConnEvent.reopen, ConnEvent.closure, ConnEvent.reopen,
           ConnEvent.closure, ConnEvent.reopen, ConnEvent.closure, ConnEvent.reopen]).terminal
          = some TermSig.completed
      ∧ (runConn (List.replicate 10 ConnEvent.closure)).terminal = some TermSig.completed
      ∧ (runConn [ConnEvent.closure, ConnEvent.reopen]).errorsSeen = 1
      ∧ ¬ retryResetClaim :=
  ⟨by decide, by decide, by decide, by decide,
   fun h => absurd (h.2.2 [ConnEvent.closure]) (by decide)⟩

/-- C7 (amended): on abnormal closure the subscription retries after the fixed
3000 ms delay, but the attempt budget of 10 is cumulative over the whole
subscription (a successful reopen does not reset it); while fewer than 10
closures have ever occurred no terminal notification is surfaced, and on the
10th cumulative closure the stream terminates exactly once — with a completion
notification to the subscriber, never with a fatal error notification. -/
theorem retry_pipeline_cumulative (tr : List ConnEvent) :
    (runConn tr).errorsSeen = min (countClosuresRec tr) retryBound
      ∧ (runConn tr).retries
          = List.replicate (min (countClosuresRec tr) retryBound) retryDelayMs
      ∧ (runConn tr).terminal
          = (if retryBound ≤ countClosuresRec tr then some TermSig.completed else none)
      ∧ (runConn tr).terminal ≠ some TermSig.errored := by
  have h0 : initialRetrySub = mkRetrySub 0 := by
    simp [initialRetrySub, mkRetrySub, retryBound]
  have h : runConn tr = mkRetrySub (countClosuresRec tr) := by
    rw [runConn, h0, foldl_stepConn_mk, Nat.zero_add]
  rw [h]
  refine ⟨rfl, rfl, rfl, ?_⟩
  unfold mkRetrySub
  split
  · simp
  · simp

/-- How one event updates the settings busy flag (as a function of the event
classification only). -/
def flagUpd (sends clears : PageEvent → Bool) (e : PageEvent) (b : Bool) : Bool :=
  if sends e then true else if clears e then false else b

/-- The terminal events of the settings-save action: its success envelope or
any error envelope. -/
def clearsSettings (e : PageEvent) : Bool :=
  isErrorEnvelope e || isSaveSettingsSuccess e

/-- The events that drop the deletion busy flag: the deletion success
envelope, any error envelope, or the whole-ViewModel reset performed by a
settings-save success. -/
def clearsDelete (e : PageEvent) : Bool :=
  isErrorEnvelope e || isDeleteAccountSuccess e || isSaveSettingsSuccess e

/-- The events that drop the avatar busy flag: the upload's HTTP completion,
any error envelope, or the whole-ViewModel reset performed by a settings-save
success. -/
def clearsAvatar (e : PageEvent) : Bool :=
  isErrorEnvelope e || isAvatarDone e || isSaveSettingsSuccess e

/-- Each step's effect on the three busy flags depends only on the event's
classification (send / terminal / reset), never on the rest of the state. -/
theorem step_busy_flags (mu : Option MyUser) (props : PageProps)
    (st : UserState) (e : PageEvent) :
    (step mu props st e).1.userSettingsLoading
        = flagUpd sendsSettings clearsSettings e st.userSettingsLoading
      ∧ (step mu props st e).1.deleteAccountLoading
          = flagUpd sendsDelete clearsDelete e st.deleteAccountLoading
      ∧ (step mu props st e).1.avatarLoading
          = flagUpd sendsAvatar clearsAvatar e st.avatarLoading := by
  cases e with
  | submitSettings =>
      simp [step, handleUserSettingsSubmit, flagUpd, sendsSettings, sendsDelete,
        sendsAvatar, clearsSettings, clearsDelete, clearsAvatar, isErrorEnvelope,
        isSaveSettingsSuccess, isDeleteAccountSuccess, isAvatarDone]
  | submitDelete =>
      simp [step, handleDeleteAccount, flagUpd, sendsSettings, sendsDelete,
        sendsAvatar, clearsSettings, clearsDelete, clearsAvatar, isErrorEnvelope,
        isSaveSettingsSuccess, isDeleteAccountSuccess, isAvatarDone]
  | startAvatar =>
      simp [step, handleImageUploadStart, flagUpd, sendsSettings, sendsDelete,
        sendsAvatar, clearsSettings, clearsDelete, clearsAvatar, isErrorEnvelope,
        isSaveSettingsSuccess, isDeleteAccountSuccess, isAvatarDone]
  | avatarHttpOk url =>
      simp [step, handleImageUploadOk, flagUpd, sendsSettings, sendsDelete,
        sendsAvatar, clearsSettings, clearsDelete, clearsAvatar, isErrorEnvelope,
        isSaveSettingsSuccess, isDeleteAccountSuccess, isAvatarDone]
  | avatarHttpFail body =>
      simp [step, handleImageUploadFail, flagUpd, sendsSettings, sendsDelete,
        sendsAvatar, clearsSettings, clearsDelete, clearsAvatar, isErrorEnvelope,
        isSaveSettingsSuccess, isDeleteAccountSuccess, isAvatarDone]
  | ws msg =>
      obtain ⟨op, data, error, reconnect⟩ := msg
      cases error with
      | some err =>
          simp [step, parseMessage, flagUpd, sendsSettings, sendsDelete,
            sendsAvatar, clearsSettings, clearsDelete, clearsAvatar,
            isErrorEnvelope, isSaveSettingsSuccess, isDeleteAccountSuccess,
            isAvatarDone]
      | none =>
          cases reconnect with
          | true =>
              simp [step, parseMessage, flagUpd, sendsSettings, sendsDelete,
                sendsAvatar, clearsSettings, clearsDelete, clearsAvatar,
                isErrorEnvelope, isSaveSettingsSuccess, isDeleteAccountSuccess,
                isAvatarDone]
          | false =>
              cases op <;> cases data <;>
                simp [step, parseMessage, flagUpd, sendsSettings, sendsDelete,
                  sendsAvatar, clearsSettings, clearsDelete, clearsAvatar,
                  isErrorEnvelope, isSaveSettingsSuccess, isDeleteAccountSuccess,
                  isAvatarDone, emptyState]

/-- Folding the page over a trace folds each busy flag by its event
classification. -/
theorem runPage_busy_flags (tr : List PageEvent) :
    ∀ (mu : Option MyUser) (props : PageProps) (st : UserState),
      ((tr.foldl (fun s e => (step mu props s e).1) st).userSettingsLoading
          = tr.foldl (fun b e => flagUpd sendsSettings clearsSettings e b)
              st.userSettingsLoading)
        ∧ ((tr.foldl (fun s e => (step mu props s e).1) st).deleteAccountLoading
            = tr.foldl (fun b e => flagUpd sendsDelete clearsDelete e b)
                st.deleteAccountLoading)
        ∧ ((tr.foldl (fun s e => (step mu props s e).1) st).avatarLoading
            = tr.foldl (fun b e => flagUpd sendsAvatar clearsAvatar e b)
                st.avatarLoading) := by
  induction tr with
  | nil => intro mu props st; exact ⟨rfl, rfl, rfl⟩
  | cons e tr ih =>
    intro mu props st
    have hstep := step_busy_flags mu props st e
    have ihs := ih mu props (step mu props st e).1
    refine ⟨?_, ?_, ?_⟩
    · rw [List.foldl_cons, List.foldl_cons, ihs.1, hstep.1]
    · rw [List.foldl_cons, List.foldl_cons, ihs.2.1, hstep.2.1]
    · rw [List.foldl_cons, List.foldl_cons, ihs.2.2, hstep.2.2]

/-- C3 counterexample: submit an account deletion, then receive a
settings-save success envelope.  The deletion request has been sent and none
of its terminal responses (deletion success or any error) has arrived, yet the
deletion busy flag is false, because the settings-save reset clobbers every
flag; so the claimed iff fails. -/
theorem busy_flag_claim_cex :
    pendingFlag sendsDelete
        (fun e => isErrorEnvelope e || isDeleteAccountSuccess e)
        [PageEvent.submitDelete,
         PageEvent.ws (WsMsg.mk UserOperation.SaveUserSettings
           (WsData.loginRes (LoginResponse.mk "tok")) none false)] = true
      ∧ (runPage none props0
          [PageEvent.submitDelete,
           PageEvent.ws (WsMsg.mk UserOperation.SaveUserSettings
             (WsData.loginRes (LoginResponse.mk "tok")) none false)]).deleteAccountLoading
          = false
      ∧ ¬ busyFlagClaim :=
  ⟨by decide, by decide,
   fun h =>
     absurd
       ((h none props0
         [PageEvent.submitDelete,
          PageEvent.ws (WsMsg.mk UserOperation.SaveUserSettings
            (WsData.loginRes (LoginResponse.mk "tok")) none false)]).2.1)
       (by decide)⟩

/-- C3 (amended): after any sequence of user actions interleaved with inbound
envelopes, each busy flag is true iff its matching mutating request has been
sent and, since then, neither a terminal response for that action (its success
envelope — for the avatar upload, its HTTP completion — or any error envelope)
nor a settings-save success envelope (whose whole-ViewModel reset drops every
busy flag) has been processed. -/
theorem busy_flag_discipline (mu : Option MyUser) (props : PageProps)
    (tr : List PageEvent) :
    (runPage mu props tr).userSettingsLoading
        = pendingFlag sendsSettings clearsSettings tr
      ∧ (runPage mu props tr).deleteAccountLoading
          = pendingFlag sendsDelete clearsDelete tr
      ∧ (runPage mu props tr).avatarLoading
          = pendingFlag sendsAvatar clearsAvatar tr := by
  have h := runPage_busy_flags tr mu props (emptyState props)
  exact ⟨h.1, h.2.1, h.2.2⟩

/-- The code-point comparison is total. -/
theorem jsStrLeAux_total (a b : List Char) :
    jsStrLeAux a b = true ∨ jsStrLeAux b a = true := by
  induction a generalizing b with
  | nil => left; rfl
  | cons c cs ih =>
    cases b with
    | nil => right; rfl
    | cons d ds =>
      by_cases hcd : c < d
      · left; simp [jsStrLeAux, hcd]
      · by_cases hdc : d < c
        · right; simp [jsStrLeAux, hdc]
        · rcases ih ds with h | h
          · left; simp [jsStrLeAux, hcd, hdc, h]
          · right; simp [jsStrLeAux, hcd, hdc, h]

/-- The code-point comparison is transitive. -/
theorem jsStrLeAux_trans (a : List Char) :
    ∀ b c : List Char, jsStrLeAux a b = true → jsStrLeAux b c = true →
      jsStrLeAux a c = true := by
  induction a with
  | nil => intro b c _ _; rfl
  | cons x xs ih =>
    intro b c h1 h2
    cases b with
    | nil => simp [jsStrLeAux] at h1
    | cons y ys =>
      cases c with
      | nil => simp [jsStrLeAux] at h2
      | cons z zs =>
        simp only [jsStrLeAux] at h1 h2 ⊢
        by_cases hxy : x < y
        · by_cases hyz : y < z
          · simp [lt_trans hxy hyz]
          · by_cases hzy : z < y
            · simp [hyz, hzy] at h2
            · have hyzeq : y = z := le_antisymm (not_lt.mp hzy) (not_lt.mp hyz)
              subst hyzeq
              simp [hxy]
        · by_cases hyx : y < x
          · simp [hxy, hyx] at h1
          · have hxyeq : x = y := le_antisymm (not_lt.mp hyx) (not_lt.mp hxy)
            subst hxyeq
            by_cases hxz : x < z
            · simp [hxz]
            · by_cases hzx : z < x
              · simp [hxz, hzx] at h2
              · simp [hxy, hyx] at h1
                simp [hxz, hzx] at h2 ⊢
                exact ih ys zs h1 h2

/-- The comparator relation of `overview` is total for every sort mode. -/
theorem ovLe_total (s : SortType) (a b : OvItem) :
    ovLe s a b = true ∨ ovLe s b a = true := by
  unfold ovLe
  split
  · exact jsStrLeAux_total b.published.data a.published.data
  · simp only [decide_eq_true_eq]
    exact Int.le_total b.score a.score

/-- The comparator relation of `overview` is transitive for every sort mode. -/
theorem ovLe_trans (s : SortType) (a b c : OvItem) (h1 : ovLe s a b = true)
    (h2 : ovLe s b c = true) : ovLe s a c = true := by
  unfold ovLe at h1 h2 ⊢
  split at h1 <;> rename_i hs
  · rw [if_pos hs] at h2
    rw [if_pos hs]
    exact jsStrLeAux_trans c.published.data b.published.data a.published.data h2 h1
  · rw [if_neg hs] at h2
    rw [if_neg hs]
    simp only [decide_eq_true_eq] at h1 h2 ⊢
    exact le_trans h2 h1

/-- Stable insertion permutes the inserted element onto the list. -/
theorem insertSorted_perm (le : OvItem → OvItem → Bool) (x : OvItem)
    (l : List OvItem) : List.Perm (insertSorted le x l) (x :: l) := by
  induction l with
  | nil => exact List.Perm.refl _
  | cons y ys ih =>
    rw [insertSorted]
    split
    · exact (List.Perm.cons y ih).trans (List.Perm.swap x y ys)
    · exact List.Perm.refl _

/-- The comparator sort only permutes the combined collection. -/
theorem jsSort_perm_aux (le : OvItem → OvItem → Bool) (l : List OvItem) :
    ∀ acc : List OvItem,
      List.Perm (l.foldl (fun acc x => insertSorted le x acc) acc) (acc ++ l) := by
  induction l with
  | nil => intro acc; simp
  | cons x xs ih =>
    intro acc
    rw [List.foldl_cons]
    refine (ih (insertSorted le x acc)).trans ?_
    refine (List.Perm.append_right xs (insertSorted_perm le x acc)).trans ?_
    exact List.perm_middle.symm

/-- `jsSort` is a permutation of its input. -/
theorem jsSort_perm (le : OvItem → OvItem → Bool) (l : List OvItem) :
    List.Perm (jsSort le l) l := by
  simpa using jsSort_perm_aux le l []

/-- Stable insertion preserves sortedness under a total transitive
comparator. -/
theorem insertSorted_pairwise (le : OvItem → OvItem → Bool)
    (htot : ∀ a b, le a b = true ∨ le b a = true)
    (htrans : ∀ a b c, le a b = true → le b c = true → le a c = true)
    (x : OvItem) (l : List OvItem)
    (hl : l.Pairwise (fun a b => le a b = true)) :
    (insertSorted le x l).Pairwise (fun a b => le a b = true) := by
  induction l with
  | nil => simp [insertSorted]
  | cons y ys ih =>
    rcases List.pairwise_cons.mp hl with ⟨hy, hys⟩
    rw [insertSorted]
    by_cases hyx : le y x = true
    · rw [if_pos hyx]
      refine List.pairwise_cons.mpr ⟨?_, ih hys⟩
      intro b hb
      rcases List.mem_cons.mp ((insertSorted_perm le x ys).mem_iff.mp hb) with rfl | hbys
      · exact hyx
      · exact hy b hbys
    · rw [if_neg hyx]
      have hxy : le x y = true := (htot y x).resolve_left hyx
      refine List.pairwise_cons.mpr ⟨?_, hl⟩
      intro b hb
      rcases List.mem_cons.mp hb with rfl | hbys
      · exact hxy
      · exact htrans x y b hxy (hy b hbys)

/-- `jsSort` sorts under a total transitive comparator. -/
theorem jsSort_pairwise (le : OvItem → OvItem → Bool)
    (htot : ∀ a b, le a b = true ∨ le b a = true)
    (htrans : ∀ a b c, le a b = true → le b c = true → le a c = true)
    (l : List OvItem) :
    (jsSort le l).Pairwise (fun a b => le a b = true) := by
  have haux : ∀ (m acc : List OvItem), acc.Pairwise (fun a b => le a b = true) →
      (m.foldl (fun acc x => insertSorted le x acc) acc).Pairwise
        (fun a b => le a b = true) := by
    intro m
    induction m with
    | nil => intro acc h; exact h
    | cons x xs ih =>
      intro acc h
      rw [List.foldl_cons]
      exact ih (insertSorted le x acc) (insertSorted_pairwise le htot htrans x acc h)
  exact haux l [] List.Pairwise.nil

/-- The scenario state of C9: the page holds posts 10 (score 5) and 11
(score 3), both published at the same instant, no comments, sort mode New. -/
def overviewScenarioState : UserState :=
  { emptyState props0 with
    posts := [post1, post2]
    sort := SortType.New
    loading := false }

/-- C9: the overview collection is the combined comments-plus-posts collection
ordered descending by published under sort mode New and descending by score
under every other sort mode; in the concrete two-post scenario New yields post
10 before post 11 (arrival order), and switching the sort to TopAll re-sorts
the already-held collection — which the sort change leaves untouched, no new
response needed — to 10 (score 5) before 11 (score 3). -/
theorem overview_ordering (st : UserState) :
    List.Perm (overview st) (combinedList st.comments st.posts)
      ∧ (st.sort = SortType.New →
          (overview st).Pairwise
            (fun a b => jsStrLe b.published a.published = true))
      ∧ (st.sort ≠ SortType.New →
          (overview st).Pairwise (fun a b => b.score ≤ a.score))
      ∧ overview overviewScenarioState = [OvItem.post post1, OvItem.post post2]
      ∧ (handleSortChange overviewScenarioState SortType.TopAll).1.comments
          = overviewScenarioState.comments
      ∧ (handleSortChange overviewScenarioState SortType.TopAll).1.posts
          = overviewScenarioState.posts
      ∧ overview (handleSortChange overviewScenarioState SortType.TopAll).1
          = [OvItem.post post1, OvItem.post post2] := by
  refine ⟨jsSort_perm _ _, ?_, ?_, by decide, rfl, rfl, by decide⟩
  · intro hnew
    have h := jsSort_pairwise (ovLe st.sort) (ovLe_total st.sort)
      (ovLe_trans st.sort) (combinedList st.comments st.posts)
    refine h.imp ?_
    intro a b hab
    rw [ovLe, if_pos hnew] at hab
    exact hab
  · intro hne
    have h := jsSort_pairwise (ovLe st.sort) (ovLe_total st.sort)
      (ovLe_trans st.sort) (combinedList st.comments st.posts)
    refine h.imp ?_
    intro a b hab
    rw [ovLe, if_neg hne] at hab
    exact decide_eq_true_eq.mp hab

/-- Witness for C9: the scenario state is New-sorted, and after the switch to
TopAll the overview is score-sorted. -/
theorem overview_ordering_witness :
    (overview overviewScenarioState).Pairwise
        (fun a b => jsStrLe b.published a.published = true)
      ∧ (overview (handleSortChange overviewScenarioState SortType.TopAll).1).Pairwise
          (fun a b => b.score ≤ a.score) :=
  ⟨(overview_ordering overviewScenarioState).2.1 rfl,
   (overview_ordering (handleSortChange overviewScenarioState SortType.TopAll).1).2.2.1
     (by decide)⟩

end UserPage
